import Mathlib

/-!
Shallow embedding of the MBTI hidden-role ("spy") game backend
(`mbtispy/views.py`) and proofs about its state machine, role assignment
and vote tallying.  Machine-level concerns (Redis storage, the per-session
distributed lock, HTTP transport) are abstracted away: every endpoint is
modelled as a pure function from the loaded session snapshot (the lock
linearizes each read-modify-write, so a single snapshot is faithful) to a
result value plus the session as persisted on exit.  Wall-clock timestamps
are abstracted to an opaque marker.
-/

set_option autoImplicit false

deriving instance DecidableEq for Except

namespace MbtiSpy

/-- The 8-letter trait alphabet (`MBTI_LETTERS` in views.py). -/
def MBTI_LETTERS : List Char := ['I', 'E', 'S', 'N', 'T', 'F', 'P', 'J']

/-- Python `str.strip()`: drop whitespace from both ends.  (Extensionally
`String.trim`, but written over the character list so that the kernel can
evaluate it.) -/
def pyStrip (s : String) : String :=
  ⟨((s.data.dropWhile Char.isWhitespace).reverse.dropWhile Char.isWhitespace).reverse⟩

/-- Python `str.lower()` for the ASCII data in play. -/
def pyLower (s : String) : String := ⟨s.data.map Char.toLower⟩

/-- Python `str.upper()` for the ASCII data in play. -/
def pyUpper (s : String) : String := ⟨s.data.map Char.toUpper⟩

/-- Decimal-digit accumulator for `pyInt?`. -/
def digitsVal (acc : Nat) : List Char → Option Nat
  | [] => some acc
  | c :: cs => if c.isDigit then digitsVal (acc * 10 + (c.toNat - 48)) cs else none

/-- Python `int(str)`: surrounding whitespace tolerated, optional sign,
then decimal digits.  (Digit-group underscores are not modelled; no input
in this system uses them.) -/
def pyInt? (s : String) : Option Int :=
  match (pyStrip s).data with
  | [] => none
  | '-' :: cs =>
      if cs.isEmpty then none else (digitsVal 0 cs).map (fun n => -(n : Int))
  | '+' :: cs =>
      if cs.isEmpty then none else (digitsVal 0 cs).map (fun n => (n : Int))
  | cs => (digitsVal 0 cs).map (fun n => (n : Int))

/-- `_normalize_mbti` (views.py lines 89-95): reject empty input, otherwise
trim and uppercase, then require exactly 4 letters from the alphabet. -/
def normalize_mbti (value : String) : Except String String :=
  if value = "" then .error "MBTI must not be empty."
  else
    let candidate := pyUpper (pyStrip value)
    if candidate.length == 4 && candidate.toList.all (fun letter => MBTI_LETTERS.contains letter) then
      .ok candidate
    else .error "MBTI must be a four-letter code such as INFJ."

/-- A registered player (the dict built in `register_player`). -/
structure Player where
  id : Int
  name : String
  mbti : String
  role : String
  department : String
  consent_save_mbti : Bool
  deriving Repr, DecidableEq, Inhabited

/-- A vote target: another player's integer id, or the string sentinel
`"all_spies"` meaning "every player is hidden". -/
inductive VoteTarget where
  | player (id : Int)
  | allSpies
  deriving Repr, DecidableEq

/-- The `votes` dict (`str(player_id) -> target`), modelled as an
insertion-ordered association list with Python-dict overwrite semantics. -/
abbrev Votes := List (Int × VoteTarget)

/-- Python dict assignment `votes[k] = v`: overwrite in place, else append. -/
def assocSet : Votes → Int → VoteTarget → Votes
  | [], k, v => [(k, v)]
  | (k', v') :: rest, k, v =>
      if k' = k then (k, v) :: rest else (k', v') :: assocSet rest k v

/-- Python `votes.get(str(k))`. -/
def lookupVote (votes : Votes) (k : Int) : Option VoteTarget :=
  (votes.find? (fun e => e.1 == k)).map (·.2)

/-- Entry of `players_with_votes` (views.py lines 689-697). -/
structure PlayerWithVotes where
  player_id : Int
  name : String
  role : String
  votes : Nat
  deriving Repr, DecidableEq, Inhabited

/-- The `results` dict built by `get_results` (views.py lines 699-703,
755-756).  Its `message` key is initialized to `None` and never
reassigned — only the session-level `message` field receives the
human-readable text. -/
structure Results where
  winners : List PlayerWithVotes
  losers : List PlayerWithVotes
  message : Option String
  deriving Repr, DecidableEq

/-- The keys of the serialized `results` dict as returned in the
`get_results` JSON payload: exactly these three, in dict insertion order. -/
def resultsPayloadKeys : List String := ["winners", "losers", "message"]

/-- The session aggregate stored in Redis (`create_session` layout plus the
fields later operations attach).  `message` is absent (`none`) until
`get_results` completes; `vote_started_at` abstracts the wall-clock stamp. -/
structure Session where
  code : String
  expected_players : Nat
  status : String
  players : List Player
  spy_mbti : Option String
  votes : Votes
  results : Option Results
  message : Option String
  vote_started_at : Option Nat
  deriving Repr, DecidableEq

/-- Python truthiness of the stored `spy_mbti` value
(`bool(session.get("spy_mbti"))`): `None` and `""` are falsy. -/
def strTruthy : Option String → Bool
  | none => false
  | some s => s != ""

/-- `_assign_spies` (views.py lines 211-235).  The `random.choice` call in
the three-distinct-values branch is injected as the `choice` parameter. -/
def assign_spies (choice : List String → String) (players : List Player) :
    Except String (String × List Player) :=
  if players.length ≠ 3 then
    .error "MBTI Spy Challenge requires exactly three players."
  else
    let mbtis := players.map (·.mbti)
    let unique_mbtis := mbtis.dedup
    let spyE : Except String String :=
      if unique_mbtis.length = 1 then .ok (unique_mbtis.headD "")
      else if unique_mbtis.length = 2 then
        match unique_mbtis.find? (fun m => mbtis.count m == 1) with
        | some v => .ok v
        | none => .error "Unable to determine spy_mbti from the provided MBTI values."
      else .ok (choice mbtis)
    match spyE with
    | .error e => .error e
    | .ok spy_mbti =>
        .ok (spy_mbti,
          players.map (fun p =>
            { p with role := if p.mbti = spy_mbti then "spy" else "detective" }))

/-- JSON body of a registration request (`register_player` reads these
keys); absent keys are `none`.  `save_mbti` is pre-collapsed through
`_strict_bool` (only the literal `true` matters). -/
structure RegisterPayload where
  session_code : Option String
  player_name : Option String
  mbti : Option String
  department : Option String
  save_mbti : Bool
  deriving Repr, DecidableEq

/-- `register_player` (views.py lines 304-392).  `store` is the session
currently persisted under the code (`none` when absent); `code` is the URL
path component.  On success returns the saved session and the assigned
player id.  The database side effect for consenting players does not touch
the session and is omitted. -/
def register_player (store : Option Session) (code : String) (payload : RegisterPayload) :
    Except String (Session × Int) :=
  let session_code := if code ≠ "" then code else payload.session_code.getD ""
  if session_code = "" then .error "session_code is required."
  else if (match payload.session_code with
           | some body_code => body_code != "" && body_code != session_code
           | none => false) then
    .error "session_code in URL and body do not match."
  else match payload.player_name with
  | none => .error "Player name must not be empty."
  | some player_name =>
    if player_name = "" then .error "Player name must not be empty."
    else if pyStrip player_name = "" then .error "Player name must not be empty."
    else match payload.department with
    | none => .error "Department is required."
    | some department_raw =>
      if pyStrip department_raw = "" then .error "Department must not be empty."
      else match normalize_mbti (payload.mbti.getD "") with
      | .error e => .error e
      | .ok mbti_value =>
        let player_name_clean := pyStrip player_name
        match store with
        | none => .error "Session does not exist. Please verify the session_code."
        | some session =>
          if session.status ≠ "registering" then
            .error "Game already started; new players cannot join."
          else if session.players.any (fun p => p.name == player_name_clean) then
            .error "Player name already taken. Choose another nickname."
          else if session.players.length ≥ session.expected_players then
            .error "Session is full; cannot join."
          else
            let player : Player :=
              { id := (session.players.length : Int) + 1
                name := player_name_clean
                mbti := mbti_value
                role := "unknown"
                department := pyStrip department_raw
                consent_save_mbti := payload.save_mbti }
            .ok ({ session with players := session.players ++ [player] }, player.id)

/-- Non-success outcomes of `registration_status`. -/
inductive RegStat where
  | pending
  | error (msg : String)
  | ok
  deriving Repr, DecidableEq

/-- Role derivation loop of `registration_status` (views.py lines 459-463). -/
def deriveRoles (spy_mbti : String) (players : List Player) : List Player :=
  players.map (fun p =>
    { p with role := if p.mbti = spy_mbti then "spy" else "detective" })

/-- `registration_status` (views.py lines 420-486): the readiness poll.
Returns the response kind together with the session as persisted on exit
(unchanged on pending/error paths, which return before `_save_session`). -/
def registration_status (choice : List String → String) (s : Session) :
    RegStat × Session :=
  if s.players.length < s.expected_players then (.pending, s)
  else if s.players.length > s.expected_players then
    (.error "Number of registered players exceeds expected count.", s)
  else if strTruthy s.spy_mbti then
    let s' := if s.status = "registering" ∨ s.status = "confirming" then
                { s with status := "started" }
              else s
    let spy_mbti := s.spy_mbti.getD ""
    (.ok, { s' with players := deriveRoles spy_mbti s'.players })
  else
    match assign_spies choice s.players with
    | .error e => (.error e, s)
    | .ok (spy_mbti, _) =>
        let s' := { s with spy_mbti := some spy_mbti, status := "started",
                           votes := [], results := none, vote_started_at := none }
        (.ok, { s' with players := deriveRoles spy_mbti s'.players })

/-- Outcomes of `start_vote`. -/
inductive StartRes where
  | pending (msg : String)
  | ok
  deriving Repr, DecidableEq

/-- `start_vote` (views.py lines 532-563).  The wall-clock
`vote_started_at` stamp is abstracted to `some 0`. -/
def start_vote (s : Session) : StartRes × Session :=
  if ¬ strTruthy s.spy_mbti then
    (.pending "Roles have not been assigned yet, voting cannot start.", s)
  else if s.status ≠ "started" then
    (.pending "Voting cannot be started from the current state.", s)
  else
    (.ok, { s with votes := [], results := none, status := "voting",
                   vote_started_at := some 0 })

/-- The `id` field of a vote option dict: a player id, or the sentinel's
string id. -/
inductive OptionId where
  | pid (n : Int)
  | sid (s : String)
  deriving Repr, DecidableEq

/-- One entry of the vote option list. -/
structure VoteOption where
  id : OptionId
  name : String
  deriving Repr, DecidableEq

/-- The sentinel option appended to every option list (views.py line 598). -/
def allSpiesOption : VoteOption :=
  { id := .sid "都是隐藏者", name := "场上所有玩家都是隐藏者！" }

/-- Outcomes of the GET branch of `vote_endpoint`. -/
inductive OptRes where
  | pending (msg : String)
  | error (msg : String)
  | ok (options : List VoteOption)
  deriving Repr, DecidableEq

/-- GET branch of `vote_endpoint` (views.py lines 572-611): the option
list offered to `player_id`.  The computed `all_spies_mode` flag is unused
by the source (the conditional append is commented out): the sentinel
option is appended unconditionally. -/
def vote_options (s : Session) (player_id : Int) : OptRes :=
  if s.status ≠ "voting" then .pending "Voting has not started yet."
  else
    match s.players.find? (fun p => p.id == player_id) with
    | none => .error "Requested player does not exist."
    | some _ =>
        .ok ((s.players.filter (fun candidate => candidate.id ≠ player_id)).map
              (fun candidate => { id := .pid candidate.id, name := candidate.name })
            ++ [allSpiesOption])

/-- The raw JSON `vote_for` value: a string or an integer. -/
inductive RawVote where
  | rstr (s : String)
  | rint (n : Int)
  deriving Repr, DecidableEq

/-- Target parsing in the POST branch of `vote_endpoint` (views.py lines
614-624): missing value is an error; a string equal to `"all_spies"` after
strip/lower is the sentinel; otherwise Python `int()` coercion (which
tolerates surrounding whitespace on strings). -/
def parse_vote_for : Option RawVote → Except String VoteTarget
  | none => .error "vote_for must be provided."
  | some (.rstr s) =>
      if pyLower (pyStrip s) = "all_spies" then .ok .allSpies
      else match pyInt? s with
        | some n => .ok (.player n)
        | none => .error "vote_for must be an integer player id or 'all_spies'."
  | some (.rint n) => .ok (.player n)

/-- The target-existence check of the POST branch (views.py line 629):
`target_id != "all_spies" and not any(p["id"] == target_id ...)`. -/
def targetMissing (players : List Player) : VoteTarget → Bool
  | .allSpies => false
  | .player n => !(players.any (fun p => p.id == n))

/-- Outcomes of the POST branch of `vote_endpoint`. -/
inductive VoteRes where
  | pending (msg : String)
  | error (msg : String)
  | ok (target : VoteTarget)
  deriving Repr, DecidableEq

/-- POST branch of `vote_endpoint` (views.py lines 566-657): validates and
stores one ballot.  The status re-check inside the lock re-reads the same
snapshot, so it collapses with the initial check.  On every non-ok path
the session is returned unchanged (no save happens). -/
def submit_vote (s : Session) (player_id : Int) (raw : Option RawVote) :
    VoteRes × Session :=
  if s.status ≠ "voting" then (.pending "Voting has not started yet.", s)
  else match parse_vote_for raw with
  | .error e => (.error e, s)
  | .ok target_id =>
      if ¬ s.players.any (fun p => p.id == player_id) then
        (.error "Voting player does not exist.", s)
      else if targetMissing s.players target_id then
        (.error "Selected target player does not exist.", s)
      else if VoteTarget.player player_id = target_id then
        (.error "Cannot vote for oneself.", s)
      else
        (.ok target_id,
         { s with votes := assocSet s.votes player_id target_id, results := none })

/-- One step of building the `total` dict (views.py lines 684-686):
`total[target] = total.get(target, 0) + 1`, preserving Python dict key
insertion order. -/
def tallyInsert : List (VoteTarget × Nat) → VoteTarget → List (VoteTarget × Nat)
  | [], t => [(t, 1)]
  | (t', c) :: rest, t =>
      if t' = t then (t, c + 1) :: rest else (t', c) :: tallyInsert rest t

/-- The `total` vote-count dict, keyed by vote target in first-appearance
order of `votes.values()`. -/
def voteTotals (votes : Votes) : List (VoteTarget × Nat) :=
  votes.foldl (fun acc e => tallyInsert acc e.2) []

/-- Python `max(total.values())`: `none` on an empty dict (where the
source would raise `ValueError`). -/
def maxCount : List (VoteTarget × Nat) → Option Nat
  | [] => none
  | (_, c) :: rest => some (rest.foldl (fun acc e => max acc e.2) c)

/-- `top_candidates` (views.py line 718): the targets achieving the
maximum count, in `total` iteration order ([] when the ballot is empty). -/
def topCands (votes : Votes) : List VoteTarget :=
  match maxCount (voteTotals votes) with
  | none => []
  | some m => ((voteTotals votes).filter (fun e => e.2 == m)).map (·.1)

/-- Python `total.get(pid, 0)`. -/
def countFor (votes : Votes) (pid : Int) : Nat :=
  (((voteTotals votes).find? (fun e => e.1 == VoteTarget.player pid)).map (·.2)).getD 0

/-- Insertion sort of the `players` dict keys (`sorted(players.keys())`). -/
def insertSorted (n : Int) : List Int → List Int
  | [] => [n]
  | m :: ms => if n ≤ m then n :: m :: ms else m :: insertSorted n ms

/-- `sorted` over integer keys. -/
def sortInts (l : List Int) : List Int := l.foldr insertSorted []

/-- Python dict assignment for the id-keyed player dict. -/
def dictSet : List (Int × Player) → Int → Player → List (Int × Player)
  | [], k, p => [(k, p)]
  | (k', p') :: rest, k, p =>
      if k' = k then (k, p) :: rest else (k', p') :: dictSet rest k p

/-- The `players` dict `{p["id"]: p}` (views.py line 688): later entries
overwrite earlier ones on duplicate ids. -/
def playersDict (players : List Player) : List (Int × Player) :=
  players.foldl (fun acc p => dictSet acc p.id p) []

/-- Lookup in an id-keyed player association list. -/
def dictFind (dict : List (Int × Player)) (k : Int) : Option Player :=
  (dict.find? (fun e => e.1 == k)).map (·.2)

/-- `players_with_votes` (views.py lines 689-697): one row per distinct
player id, ascending by id, with that player's received vote count. -/
def playersWithVotes (players : List Player) (votes : Votes) : List PlayerWithVotes :=
  let dict := playersDict players
  (sortInts (dict.map (·.1))).map (fun pid =>
    let p := (dictFind dict pid).getD default
    { player_id := pid, name := p.name, role := p.role, votes := countFor votes pid })

/-- Names of the players currently labeled `"spy"`. -/
def spyNames (players : List Player) : List String :=
  (players.filter (fun p => p.role == "spy")).map (·.name)

/-- Names of the players currently labeled `"detective"`. -/
def detectiveNames (players : List Player) : List String :=
  (players.filter (fun p => p.role == "detective")).map (·.name)

/-- Outcome of the winner-determination block of `get_results`
(views.py lines 698-753), before the results/session writeback. -/
inductive TOut where
  /-- All-hidden branch (lines 704-714): winners/losers are computed, but
  the local `message` variable is never assigned in this branch, so the
  later `session["message"] = message` raises `UnboundLocalError`; the
  carried lists are the values computed before the crash. -/
  | unboundMessage (winners losers : List String)
  /-- `max()` over an empty `total` dict raises `ValueError`. -/
  | emptyMax
  /-- `players[target]` misses (`KeyError`) — unreachable for ballots whose
  targets were validated at submission time. -/
  | keyError
  /-- The `_json_pending("There is some issue with the votes. ...")` paths
  (lines 731-735, 744-753). -/
  | issue
  /-- Normal completion: winner names, loser names, and the message stored
  on the session. -/
  | done (winners losers : List String) (message : String)
  deriving Repr, DecidableEq

/-- The winner-determination block of `get_results` (views.py lines
698-753) as a pure function of roster and ballot. -/
def tallyOutcome (players : List Player) (votes : Votes) : TOut :=
  if players.all (fun p => p.role == "spy") then
    .unboundMessage
      ((players.filter (fun p => lookupVote votes p.id == some .allSpies)).map (·.name))
      ((players.filter (fun p => lookupVote votes p.id != some .allSpies)).map (·.name))
  else
    match maxCount (voteTotals votes) with
    | none => .emptyMax
    | some _ =>
        let top := topCands votes
        if top.length > 1 then
          if top.contains .allSpies then
            .done [] (players.map (·.name)) "Vote tied with 'all_spies'. No one wins."
          else
            .done (spyNames players) (detectiveNames players) "Vote tied. Spy team wins."
        else if top.length == 1 then
          match top.headD .allSpies with
          | .allSpies => .issue
          | .player n =>
              match dictFind (playersDict players) n with
              | none => .keyError
              | some p =>
                  if p.role = "spy" then
                    .done (detectiveNames players) (spyNames players)
                      "Spy eliminated. Detective team wins!"
                  else if p.role = "detective" then
                    .done (spyNames players) (detectiveNames players)
                      "Spy survives. Spy team wins!"
                  else .issue
        else .issue

/-- Outcomes of `get_results`. -/
inductive GRes where
  | pending (msg : String)
  /-- `UnboundLocalError` on `session["message"] = message` in the
  all-hidden branch; nothing is returned or persisted. -/
  | crashUnbound (winners losers : List String)
  /-- Any other uncaught exception (`ValueError`/`KeyError`). -/
  | crashOther
  | ok (results : Results)
  deriving Repr, DecidableEq

/-- `get_results` (views.py lines 660-761).  Returns the response kind and
the session as persisted on exit; pending and crashing paths leave the
stored session untouched (they exit before `_save_session`). -/
def get_results (s : Session) : GRes × Session :=
  if ¬ (s.status = "voting" ∨ s.status = "completed") then
    (.pending "Voting has not started yet.", s)
  else if s.votes.length ≠ s.expected_players then
    (.pending "Not all players have voted yet.", s)
  else
    match tallyOutcome s.players s.votes with
    | .unboundMessage w l => (.crashUnbound w l, s)
    | .emptyMax => (.crashOther, s)
    | .keyError => (.crashOther, s)
    | .issue => (.pending "There is some issue with the votes. Please verify.", s)
    | .done winners losers message =>
        let pwv := playersWithVotes s.players s.votes
        let results : Results :=
          { winners := pwv.filter (fun p => winners.contains p.name)
            losers := pwv.filter (fun p => losers.contains p.name)
            message := none }
        (.ok results,
         { s with status := "completed", message := some message,
                  results := some results })

/-- `True` exactly when a `get_results` call on `s` passes the two guards
ahead of the tally block (views.py lines 667-681) and therefore executes
the winner-determination computation; the source has no cached-`results`
early return, so this is also reached by calls on completed sessions. -/
def get_results_runs_tally (s : Session) : Bool :=
  (s.status == "voting" || s.status == "completed") &&
    s.votes.length == s.expected_players

/-! ### Concrete fixtures used by witnesses and counterexamples -/

/-- Seeker fixture: trait `INFJ`. -/
def pAlice : Player :=
  { id := 1, name := "alice", mbti := "INFJ", role := "detective",
    department := "d", consent_save_mbti := false }

/-- Seeker fixture: trait `INFJ`. -/
def pBob : Player :=
  { id := 2, name := "bob", mbti := "INFJ", role := "detective",
    department := "d", consent_save_mbti := false }

/-- Hidden-role fixture: trait `ENTP` (minority value). -/
def pCarol : Player :=
  { id := 3, name := "carol", mbti := "ENTP", role := "spy",
    department := "d", consent_save_mbti := false }

/-- A normal-mode (not all-hidden) session in the voting state, before any
ballot is cast. -/
def exVotingNorm : Session :=
  { code := "ABC123", expected_players := 3, status := "voting",
    players := [pAlice, pBob, pCarol], spy_mbti := some "ENTP",
    votes := [], results := none, message := none, vote_started_at := some 0 }

/-- All-hidden fixture players: everyone holds `INTJ`, so every role is
`"spy"`. -/
def qAlice : Player := { pAlice with mbti := "INTJ", role := "spy" }

/-- All-hidden fixture player 2. -/
def qBob : Player := { pBob with mbti := "INTJ", role := "spy" }

/-- All-hidden fixture player 3. -/
def qCarol : Player := { pCarol with mbti := "INTJ", role := "spy" }

/-- An all-hidden-mode voting session with the complete ballot
`{1 → sentinel, 2 → sentinel, 3 → player 1}`. -/
def exVotingAll : Session :=
  { exVotingNorm with
    players := [qAlice, qBob, qCarol]
    spy_mbti := some "INTJ"
    votes := [(1, .allSpies), (2, .allSpies), (3, .player 1)] }

/-- A registering session holding one player. -/
def exRegistering : Session :=
  { exVotingNorm with
    status := "registering"
    players := [pAlice]
    spy_mbti := none
    vote_started_at := none }

/-- A normal-mode voting session with the complete three-way-tie ballot
`{1 → player 2, 2 → player 3, 3 → player 1}`. -/
def exTie : Session :=
  { exVotingNorm with votes := [(1, .player 2), (2, .player 3), (3, .player 1)] }

/-- A normal-mode voting session whose ballot makes the sentinel the
unique leader: `{1 → sentinel, 2 → sentinel, 3 → player 1}`. -/
def exSentinelLead : Session :=
  { exVotingNorm with votes := [(1, .allSpies), (2, .allSpies), (3, .player 1)] }

/-- A registration request that is valid except that it carries no
`department` key. -/
def exPayloadNoDept : RegisterPayload :=
  { session_code := none, player_name := some "dave", mbti := some "INFJ",
    department := none, save_mbti := false }

/-- A fully valid registration request (name `" Dave "`, trait `" infj "`,
department `"eng"`). -/
def exPayloadDave : RegisterPayload :=
  { session_code := none, player_name := some " Dave ", mbti := some " infj ",
    department := some "eng", save_mbti := false }

/-! ### C7: the role assigner's deterministic cases -/

/-- **C7.** `_assign_spies` is deterministic outside the
three-distinct-values case: for a roster of 3 with exactly two distinct
trait values, the hidden (`spy`) trait is the value held by exactly one
player; with all three values identical, it is that shared value; and in
every successful assignment a player is labeled `"spy"` exactly when their
trait equals the hidden value, `"detective"` otherwise.  The `choice`
parameter (the injected randomness) is universally quantified, so neither
covered case depends on it. -/
theorem c7_role_assigner (choice : List String → String) (players : List Player)
    (h3 : players.length = 3) :
    (∀ v, (players.map (·.mbti)).dedup.length = 2 →
        (players.map (·.mbti)).count v = 1 →
        ∃ ps', assign_spies choice players = .ok (v, ps')) ∧
    (∀ v, players.map (·.mbti) = [v, v, v] →
        ∃ ps', assign_spies choice players = .ok (v, ps')) ∧
    (∀ spy ps', assign_spies choice players = .ok (spy, ps') →
        ∀ p' ∈ ps', p'.role = if p'.mbti = spy then "spy" else "detective") := by
  obtain ⟨a, b, c, rfl⟩ := List.length_eq_three.mp h3
  refine ⟨?_, ?_, ?_⟩
  · intro v hd hc
    by_cases hxy : a.mbti = b.mbti <;> by_cases hxz : a.mbti = c.mbti <;>
      by_cases hyz : b.mbti = c.mbti <;>
      by_cases hva : v = a.mbti <;> by_cases hvb : v = b.mbti <;>
      by_cases hvc : v = c.mbti <;>
      (try simp_all [assign_spies, List.dedup_cons_of_mem, List.dedup_cons_of_not_mem,
        List.count_cons, List.find?_cons_of_pos, List.find?_cons_of_neg, ne_comm])
    all_goals
      have hcb : ¬ c.mbti = b.mbti := fun h => hyz h.symm
    all_goals
      simp_all [List.find?_cons_of_pos, List.find?_cons_of_neg, List.count_cons]
  · intro v hv
    have hxa : a.mbti = v := by simpa using congrArg (fun l => l.headD "") hv
    have hxb : b.mbti = v := by
      simpa using congrArg (fun l => (l.drop 1).headD "") hv
    have hxc : c.mbti = v := by
      simpa using congrArg (fun l => (l.drop 2).headD "") hv
    simp [assign_spies, hxa, hxb, hxc, List.dedup_cons_of_mem]
  · intro spy ps' h p' hp'
    simp only [assign_spies] at h
    rw [if_neg (by simp)] at h
    split at h
    · exact Except.noConfusion h
    · rename_i heq
      simp only [Except.ok.injEq, Prod.mk.injEq] at h
      obtain ⟨rfl, rfl⟩ := h
      obtain ⟨p, hp, rfl⟩ := List.mem_map.mp hp'
      rfl

/-- Witness for `c7_role_assigner`: the two-distinct-values roster
`[INFJ, INFJ, ENTP]` yields hidden trait `ENTP` and the all-identical
roster `[INTJ, INTJ, INTJ]` yields `INTJ`, whatever the random choice
function is. -/
theorem c7_role_assigner_witness :
    (∃ ps', assign_spies (fun l => l.headD "") [pAlice, pBob, pCarol] =
      .ok ("ENTP", ps')) ∧
    (∃ ps', assign_spies (fun l => l.headD "") [qAlice, qBob, qCarol] =
      .ok ("INTJ", ps')) :=
  ⟨(c7_role_assigner (fun l => l.headD "") [pAlice, pBob, pCarol] rfl).1 "ENTP"
      (by decide) (by decide),
   (c7_role_assigner (fun l => l.headD "") [qAlice, qBob, qCarol] rfl).2.1 "INTJ"
      (by decide)⟩

/-! ### C1: the vote option list and the sentinel -/

/-- **C1 (counterexample).** In `exVotingNorm` not every player has the
hidden role, yet `GetVoteOptions` still returns the all-hidden sentinel
option (appended unconditionally at views.py line 598) — refuting the
claim that the sentinel is offered if and only if the session is in
all-hidden mode. -/
theorem c1_sentinel_iff_allhidden_false :
    vote_options exVotingNorm 1 =
      .ok [{ id := .pid 2, name := "bob" }, { id := .pid 3, name := "carol" },
           allSpiesOption] ∧
    exVotingNorm.players.all (fun p => p.role == "spy") = false :=
  ⟨rfl, rfl⟩

/-- **C1 (amended).** For every session in the voting state,
`GetVoteOptions(code, playerId)` returns every other player as a candidate
target, and the all-hidden sentinel option is always included, whether or
not the session is in all-hidden mode. -/
theorem c1_options_amended (s : Session) (player_id : Int) (p : Player)
    (hst : s.status = "voting")
    (hp : s.players.find? (fun q => q.id == player_id) = some p) :
    ∃ opts, vote_options s player_id = .ok opts ∧
      (∀ q ∈ s.players, q.id ≠ player_id →
        ({ id := .pid q.id, name := q.name } : VoteOption) ∈ opts) ∧
      allSpiesOption ∈ opts := by
  unfold vote_options
  rw [if_neg (by simp [hst]), hp]
  refine ⟨_, rfl, ?_, ?_⟩
  · intro q hq hne
    exact List.mem_append.mpr (.inl (List.mem_map.mpr
      ⟨q, List.mem_filter.mpr ⟨hq, by simp [hne]⟩, rfl⟩))
  · exact List.mem_append.mpr (.inr (by simp))

/-- Witness for `c1_options_amended` at `exVotingNorm`, player 1. -/
theorem c1_options_amended_witness :
    ∃ opts, vote_options exVotingNorm 1 = .ok opts ∧
      (∀ q ∈ exVotingNorm.players, q.id ≠ 1 →
        ({ id := .pid q.id, name := q.name } : VoteOption) ∈ opts) ∧
      allSpiesOption ∈ opts :=
  c1_options_amended exVotingNorm 1 pAlice rfl rfl

/-! ### C2: ballot validation in SubmitVote -/

/-- **C2 (counterexample).** `exVotingNorm` is not in all-hidden mode, yet
the sentinel vote `"all_spies"` from player 1 is accepted and stored —
refuting the claim that the sentinel is accepted only in all-hidden mode.
The POST branch of `vote_endpoint` never inspects roles. -/
theorem c2_sentinel_only_allhidden_false :
    (submit_vote exVotingNorm 1 (some (.rstr "all_spies"))).1 = .ok .allSpies ∧
    (submit_vote exVotingNorm 1 (some (.rstr "all_spies"))).2.votes =
      [(1, .allSpies)] ∧
    exVotingNorm.players.all (fun p => p.role == "spy") = false :=
  ⟨by decide, by decide, rfl⟩

/-- **C2 (amended).** A `SubmitVote(code, voterId, target)` call is
accepted exactly when the status is `voting`, the target parses, the voter
is a registered player, the target is the all-hidden sentinel (accepted in
every mode) or a registered player's id, and the voter does not target
themselves; on acceptance the vote is stored (overwriting) and the cached
results are cleared, and on any rejection the session is left unchanged. -/
theorem c2_submit_vote_amended (s : Session) (player_id : Int) (raw : Option RawVote) :
    ((∃ t, (submit_vote s player_id raw).1 = .ok t) ↔
      (s.status = "voting" ∧ ∃ t, parse_vote_for raw = .ok t ∧
        s.players.any (fun p => p.id == player_id) = true ∧
        (t = .allSpies ∨ ∃ p ∈ s.players, t = .player p.id) ∧
        t ≠ .player player_id)) ∧
    (∀ t, (submit_vote s player_id raw).1 = .ok t →
      (submit_vote s player_id raw).2 =
        { s with votes := assocSet s.votes player_id t, results := none }) ∧
    ((∀ t, (submit_vote s player_id raw).1 ≠ .ok t) →
      (submit_vote s player_id raw).2 = s) := by
  by_cases hst : s.status = "voting"
  · unfold submit_vote
    rw [if_neg (by simp [hst])]
    cases hraw : parse_vote_for raw with
    | error e => simp [hst]
    | ok t0 =>
        simp only []
        by_cases hvoter : s.players.any (fun p => p.id == player_id) = true
        · rw [if_neg (by simp [hvoter])]
          cases t0 with
          | allSpies =>
              rw [if_neg (by simp [targetMissing]), if_neg (by simp)]
              simp [hst, hvoter]
          | player n =>
              by_cases htgt : s.players.any (fun p => p.id == n) = true
              · rw [if_neg (by simp [targetMissing, htgt])]
                by_cases hself : player_id = n
                · rw [if_pos (by rw [hself])]
                  subst hself
                  simp [hst, hvoter, htgt]
                · rw [if_neg (by simp [hself])]
                  obtain ⟨p0, hp0, he0⟩ := List.any_eq_true.mp htgt
                  have he0' : p0.id = n := by simpa using he0
                  simp [hst, hvoter, hself]
                  exact ⟨⟨p0, hp0, he0'.symm⟩, fun h => hself h.symm⟩
              · rw [if_pos (by simp [targetMissing, htgt])]
                have hno : ∀ p ∈ s.players, p.id ≠ n := by
                  intro p hp hpn
                  exact htgt (List.any_eq_true.mpr ⟨p, hp, by simp [hpn]⟩)
                simp [hst, hvoter]
                intro p hp
                exact fun h => absurd h.symm (hno p hp)
        · rw [if_pos hvoter]
          simp [hvoter]
  · simp [submit_vote, hst]

/-- Witness for `c2_submit_vote_amended`: player 1 of `exVotingNorm`
voting for player 2 is stored. -/
theorem c2_submit_vote_amended_witness :
    (submit_vote exVotingNorm 1 (some (.rint 2))).2 =
      { exVotingNorm with votes := assocSet exVotingNorm.votes 1 (.player 2),
                          results := none } :=
  (c2_submit_vote_amended exVotingNorm 1 (some (.rint 2))).2.1 (.player 2) (by decide)

/-! ### C3: all-hidden-mode results -/

/-- **C3 (code bug).** On the all-hidden session `exVotingAll` with the
complete ballot `{1 → sentinel, 2 → sentinel, 3 → player 1}`, the
all-hidden branch of `get_results` computes winners `["alice", "bob"]`
(the sentinel voters) and losers `["carol"]` exactly as the claim states,
but then `session["message"] = message` reads the local `message`
variable, which that branch never assigns: the request dies with
`UnboundLocalError`, nothing is returned, and the stored session is left
unchanged (still `voting`). -/
theorem c3_all_hidden_results_crash :
    get_results exVotingAll =
      (.crashUnbound ["alice", "bob"] ["carol"], exVotingAll) ∧
    exVotingAll.status = "voting" :=
  ⟨rfl, rfl⟩

/-! ### C4: GetResults after completion -/

/-- **C4 (counterexample).** After a first `get_results` call completes
the tie session `exTie`, the stored session is `completed` — yet a second
call on that stored session still passes the guards in front of the
winner-determination block and re-executes the tally (`get_results` has no
cached-`results` early return), refuting "without invoking the
vote-tallying computation again". -/
theorem c4_no_retally_false :
    (get_results exTie).2.status = "completed" ∧
    (get_results exTie).2.results.isSome = true ∧
    get_results_runs_tally (get_results exTie).2 = true :=
  ⟨rfl, rfl, rfl⟩

/-- **C4 (amended).** Once a `get_results` call has completed a session,
every subsequent `get_results` call recomputes the tally over the frozen
ballot but — the tally being deterministic — returns the same outcome and
writes back a session value identical to the stored one. -/
theorem c4_results_idempotent (s : Session) (r : Results) (s' : Session)
    (h : get_results s = (.ok r, s')) :
    get_results s' = (.ok r, s') := by
  unfold get_results at h
  split at h
  · exact absurd h (by simp)
  · split at h
    · exact absurd h (by simp)
    · rename_i hstat hcount
      split at h
      · exact absurd h (by simp)
      · exact absurd h (by simp)
      · exact absurd h (by simp)
      · exact absurd h (by simp)
      · rename_i winners losers message htally
        simp only [Prod.mk.injEq, GRes.ok.injEq] at h
        obtain ⟨rfl, rfl⟩ := h
        unfold get_results
        rw [if_neg (by simp), if_neg (by simpa using hcount)]
        simp only []
        rw [htally]

/-- Witness for `c4_results_idempotent`: the second call on the completed
tie session returns the identical outcome and session. -/
theorem c4_results_idempotent_witness :
    get_results (get_results exTie).2 =
      (.ok { winners := [{ player_id := 3, name := "carol", role := "spy", votes := 1 }]
             losers := [{ player_id := 1, name := "alice", role := "detective", votes := 1 },
                        { player_id := 2, name := "bob", role := "detective", votes := 1 }]
             message := none },
       (get_results exTie).2) :=
  c4_results_idempotent exTie _ _ (by decide)

/-! ### C8: the sentinel as sole leader in normal mode -/

/-- **C8.** On any complete normal-mode ballot whose unique vote-count
leader is the all-hidden sentinel, `get_results` reports the explicit
inconsistency condition "There is some issue with the votes. Please
verify." and declares no winner: no side is picked, nothing is persisted,
and the session is not transitioned to `completed`. -/
theorem c8_sentinel_sole_leader (s : Session)
    (hst : s.status = "voting")
    (hcount : s.votes.length = s.expected_players)
    (hmode : s.players.all (fun p => p.role == "spy") = false)
    (htop : topCands s.votes = [.allSpies]) :
    get_results s = (.pending "There is some issue with the votes. Please verify.", s) := by
  obtain ⟨m, hm⟩ : ∃ m, maxCount (voteTotals s.votes) = some m := by
    cases hmc : maxCount (voteTotals s.votes) with
    | none => rw [topCands, hmc] at htop; exact absurd htop (by simp)
    | some m => exact ⟨m, rfl⟩
  have ht : tallyOutcome s.players s.votes = .issue := by
    unfold tallyOutcome
    rw [if_neg (by simp [hmode]), hm]
    simp [htop]
  unfold get_results
  rw [if_neg (by simp [hst]), if_neg (by simp [hcount]), ht]

/-- Witness for `c8_sentinel_sole_leader` at `exSentinelLead`. -/
theorem c8_sentinel_sole_leader_witness :
    get_results exSentinelLead =
      (.pending "There is some issue with the votes. Please verify.", exSentinelLead) :=
  c8_sentinel_sole_leader exSentinelLead rfl rfl rfl (by decide)

/-! ### C9: the hidden trait is assigned exactly once -/

/-- Re-deriving roles from an already-assigned hidden trait is the
identity on a roster whose roles are already consistent with that trait. -/
theorem deriveRoles_self (t : String) : ∀ (players : List Player),
    (∀ p ∈ players, p.role = (if p.mbti = t then "spy" else "detective")) →
    deriveRoles t players = players := by
  intro players
  induction players with
  | nil => intro _; rfl
  | cons p ps ih =>
      intro h
      have hp := h p (by simp)
      unfold deriveRoles
      simp only [List.map_cons]
      rw [← hp]
      exact congrArg₂ List.cons rfl (ih (fun q hq => h q (by simp [hq])))

/-- **C9.** The hidden trait is assigned at most once and never changes:
on a session whose `spy_mbti` is already set (to a truthy value), the
readiness poll returns the same `spy_mbti` and — the stored roles being
consistent with it — leaves the roster unchanged; on a full roster with
`spy_mbti` unset, the poll stores exactly the role assigner's output; and
registration, vote start, vote submission and results computation all
leave the stored `spy_mbti` untouched. -/
theorem c9_hidden_trait_once (choice : List String → String) (s : Session) :
    (∀ t, s.spy_mbti = some t → t ≠ "" →
      (registration_status choice s).2.spy_mbti = some t ∧
      ((∀ p ∈ s.players, p.role = (if p.mbti = t then "spy" else "detective")) →
        (registration_status choice s).2.players = s.players)) ∧
    (∀ spy ps', s.spy_mbti = none → s.players.length = s.expected_players →
      assign_spies choice s.players = .ok (spy, ps') →
      (registration_status choice s).1 = .ok ∧
      (registration_status choice s).2.spy_mbti = some spy) ∧
    (∀ code payload s' pid,
      register_player (some s) code payload = .ok (s', pid) →
        s'.spy_mbti = s.spy_mbti) ∧
    ((start_vote s).2.spy_mbti = s.spy_mbti) ∧
    (∀ pid raw, (submit_vote s pid raw).2.spy_mbti = s.spy_mbti) ∧
    ((get_results s).2.spy_mbti = s.spy_mbti) := by
  refine ⟨?_, ?_, ?_, ?_, ?_, ?_⟩
  · intro t ht htne
    rcases lt_trichotomy s.players.length s.expected_players with hlt | hfull | hgt
    · exact ⟨by simp [registration_status, hlt, ht], fun _ => by simp [registration_status, hlt]⟩
    · unfold registration_status
      rw [if_neg (by omega), if_neg (by omega),
        if_pos (by simp [strTruthy, ht, htne])]
      constructor
      · by_cases hst : s.status = "registering" ∨ s.status = "confirming" <;>
          simp [hst, ht]
      · intro hcons
        by_cases hst : s.status = "registering" ∨ s.status = "confirming" <;>
          simp [hst, ht, deriveRoles_self t s.players hcons]
    · exact ⟨by simp [registration_status, hgt, Nat.not_lt_of_lt hgt, ht],
        fun _ => by simp [registration_status, hgt, Nat.not_lt_of_lt hgt]⟩
  · intro spy ps' hnone hfull hassign
    unfold registration_status
    rw [if_neg (by omega), if_neg (by omega),
      if_neg (by simp [strTruthy, hnone]), hassign]
    exact ⟨rfl, rfl⟩
  · intro code payload s' pid h
    simp only [register_player] at h
    repeat any_goals (first
      | exact Except.noConfusion h
      | split at h)
    all_goals simp only [Except.ok.injEq, Prod.mk.injEq] at h
    all_goals obtain ⟨rfl, rfl⟩ := h
    all_goals rfl
  · unfold start_vote
    repeat first | rfl | split
  · intro pid raw
    unfold submit_vote
    repeat first | rfl | split
  · unfold get_results
    repeat first | rfl | split

/-- Witness for `c9_hidden_trait_once` on `exVotingNorm` (hidden trait
`"ENTP"` already assigned): a later readiness poll changes neither the
trait nor the roles. -/
theorem c9_hidden_trait_once_witness :
    (registration_status (fun l => l.headD "") exVotingNorm).2.spy_mbti = some "ENTP" ∧
    (registration_status (fun l => l.headD "") exVotingNorm).2.players =
      exVotingNorm.players :=
  let h := (c9_hidden_trait_once (fun l => l.headD "") exVotingNorm).1 "ENTP" rfl
    (by decide)
  ⟨h.1, h.2 (by decide)⟩

/-! ### C6: registration success and failure conditions -/

/-- **C6 (counterexample).** A request with a valid `player_name` and a
valid `mbti`, against an existing `registering` session with a free name
slot and an untaken name, still fails — because the body carries no
`department`, a requirement absent from the claim's failure list. -/
theorem c6_register_requires_department :
    register_player (some exRegistering) "ABC123" exPayloadNoDept =
      .error "Department is required." ∧
    exRegistering.status = "registering" ∧
    exRegistering.players.any (fun p => p.name == pyStrip "dave") = false ∧
    exRegistering.players.length < exRegistering.expected_players ∧
    normalize_mbti "INFJ" = .ok "INFJ" :=
  ⟨by decide, rfl, by decide, by decide, by decide⟩

/-- **C6 (amended).** `RegisterPlayer` fails only when the session is
absent, the status is not `registering`, the name is already taken, the
roster is full, the trait value fails validation, the `department` field
is missing or blank, or a body `session_code` contradicts the URL code;
when none of those conditions holds it succeeds, appends a `Player` with
the next sequential id and role `"unknown"` (name and department trimmed),
and returns the assigned id. -/
theorem c6_register_amended (store : Option Session) (code : String)
    (payload : RegisterPayload) (s : Session) (nm dep : String)
    (hcode : code ≠ "")
    (hbody : ∀ bc, payload.session_code = some bc → bc = "" ∨ bc = code)
    (hname : payload.player_name = some nm)
    (hnm : pyStrip nm ≠ "")
    (hdep : payload.department = some dep)
    (hdept : pyStrip dep ≠ "")
    (hs : store = some s)
    (hst : s.status = "registering")
    (hfresh : s.players.any (fun p => p.name == pyStrip nm) = false)
    (hfull : s.players.length < s.expected_players) :
    ∀ mv, normalize_mbti (payload.mbti.getD "") = .ok mv →
      register_player store code payload =
        .ok ({ s with players := s.players ++
                [{ id := (s.players.length : Int) + 1, name := pyStrip nm, mbti := mv,
                   role := "unknown", department := pyStrip dep,
                   consent_save_mbti := payload.save_mbti }] },
             (s.players.length : Int) + 1) := by
  intro mv hmv
  have hnm0 : ¬ nm = "" := by
    intro h0
    exact hnm (by rw [h0]; decide)
  have hb : (match payload.session_code with
             | some body_code => body_code != "" && body_code != code
             | none => false) = false := by
    cases hpc : payload.session_code with
    | none => rfl
    | some bc =>
        rcases hbody bc hpc with h0 | h0 <;> simp [h0]
  simp only [register_player, hname, hdep, hs, hmv, if_pos hcode, if_neg hcode, hb,
    if_neg hnm0, if_neg hnm, if_neg hdept,
    if_neg (show ¬ s.status ≠ "registering" by simp [hst]),
    if_neg (show ¬ (s.players.any (fun p => p.name == pyStrip nm)) = true by simp [hfresh]),
    if_neg (show ¬ s.players.length ≥ s.expected_players by omega)]
  simp

/-- Witness for `c6_register_amended`: ` Dave ` / ` infj ` / `eng` joins
the one-player registering session as player 2. -/
theorem c6_register_amended_witness :
    register_player (some exRegistering) "ABC123" exPayloadDave =
      .ok ({ exRegistering with players := exRegistering.players ++
              [{ id := (exRegistering.players.length : Int) + 1, name := pyStrip " Dave ",
                 mbti := "INFJ", role := "unknown", department := pyStrip "eng",
                 consent_save_mbti := exPayloadDave.save_mbti }] },
           (exRegistering.players.length : Int) + 1) :=
  c6_register_amended (some exRegistering) "ABC123" exPayloadDave exRegistering
    " Dave " "eng" (by decide) (fun bc h => Option.noConfusion h) rfl (by decide)
    rfl (by decide) rfl rfl (by decide) (by decide) "INFJ" (by decide)

/-! ### C10: trait and name normalization -/

/-- A successful `_normalize_mbti` returns exactly the trimmed,
uppercased input. -/
theorem normalize_mbti_ok (v r : String) (h : normalize_mbti v = .ok r) :
    pyUpper (pyStrip v) = r := by
  unfold normalize_mbti at h
  split at h
  · exact Except.noConfusion h
  · simp only [] at h
    split at h
    · exact Except.ok.inj h
    · exact Except.noConfusion h

/-- **C10.** The submitted trait code is trimmed and uppercased before
the 4-letter/8-letter-alphabet validation (so `" infj "` is accepted and
stored as `"INFJ"`); every accepted trait is stored in that canonical
form; the stored player name is only trimmed; and the duplicate-name
check compares trimmed names case-sensitively (`"Alice"` does not clash
with an existing `"alice"`, while `" alice "` does). -/
theorem c10_trait_normalization :
    (normalize_mbti " infj " = .ok "INFJ") ∧
    (∀ v r, normalize_mbti v = .ok r → r = pyUpper (pyStrip v)) ∧
    (∀ store code payload s' pid,
      register_player store code payload = .ok (s', pid) →
      ∃ p, s'.players.getLast? = some p ∧
        p.name = pyStrip (payload.player_name.getD "") ∧
        p.mbti = pyUpper (pyStrip (payload.mbti.getD ""))) ∧
    ((register_player (some exRegistering) "ABC123"
        { exPayloadDave with player_name := some "Alice" }).isOk = true) ∧
    (register_player (some exRegistering) "ABC123"
        { exPayloadDave with player_name := some " alice " } =
      .error "Player name already taken. Choose another nickname.") := by
  refine ⟨by decide, fun v r h => (normalize_mbti_ok v r h).symm, ?_, by decide, by decide⟩
  intro store code payload s' pid h
  simp only [register_player] at h
  repeat any_goals (first
    | exact Except.noConfusion h
    | split at h)
  all_goals simp only [Except.ok.injEq, Prod.mk.injEq] at h
  all_goals obtain ⟨rfl, rfl⟩ := h
  all_goals simp_all [List.getLast?_concat, normalize_mbti_ok]

/-- Witness for `c10_trait_normalization`: the canonical-form parts
instantiated at `" infj "` and at the concrete `exPayloadDave`
registration. -/
theorem c10_trait_normalization_witness :
    ("INFJ" = pyUpper (pyStrip " infj ")) ∧
    (∃ p, ({ exRegistering with players := exRegistering.players ++
              [{ id := 2, name := "Dave", mbti := "INFJ", role := "unknown",
                 department := "eng", consent_save_mbti := false }] } :
            Session).players.getLast? = some p ∧
      p.name = pyStrip (exPayloadDave.player_name.getD "") ∧
      p.mbti = pyUpper (pyStrip (exPayloadDave.mbti.getD ""))) :=
  ⟨(c10_trait_normalization.2.1 " infj " "INFJ" (by decide)).symm ▸ rfl,
   c10_trait_normalization.2.2.1 (some exRegistering) "ABC123" exPayloadDave _ 2
     (by decide)⟩

/-! ### C5: normal-mode tie among non-sentinel targets -/

/-- **C5 (counterexample).** On the concrete three-way-tie ballot `exTie`
the winners are exactly the hidden-role players and the losers the
seekers, but the serialized results dict has exactly the keys
`winners`/`losers`/`message` — there is no `tie` indicator in the payload
(and its `message` key is even left null; the human-readable tie message
lives on the session) — refuting the claimed
`{winners, losers, message, tie}` shape. -/
theorem c5_tie_flag_false :
    (get_results exTie).1 =
      .ok { winners := [{ player_id := 3, name := "carol", role := "spy", votes := 1 }]
            losers := [{ player_id := 1, name := "alice", role := "detective", votes := 1 },
                       { player_id := 2, name := "bob", role := "detective", votes := 1 }]
            message := none } ∧
    "tie" ∉ resultsPayloadKeys :=
  ⟨by decide, by decide⟩

/-- **C5 (amended).** For every complete normal-mode ballot (roster shape
as registration produces it: ids 1,2,3, distinct names, roles assigned)
in which more than one target is tied for the maximum vote count and the
sentinel is not among the leaders, `get_results` completes the session
with winners = all hidden-role players and losers = all seekers (each
with their vote counts), stores the tie message "Vote tied. Spy team
wins." on the session, and returns a results payload whose only keys are
winners/losers/message with `message` null. -/
theorem c5_tie_amended (s : Session) (p1 p2 p3 : Player)
    (hp : s.players = [p1, p2, p3])
    (h1 : p1.id = 1) (h2 : p2.id = 2) (h3 : p3.id = 3)
    (hn12 : p1.name ≠ p2.name) (hn13 : p1.name ≠ p3.name) (hn23 : p2.name ≠ p3.name)
    (hroles : ∀ p ∈ s.players, p.role = "spy" ∨ p.role = "detective")
    (hst : s.status = "voting") (hexp : s.expected_players = 3)
    (hv : s.votes.length = 3)
    (hns : s.players.all (fun p => p.role == "spy") = false)
    (htie : 1 < (topCands s.votes).length)
    (hsent : (topCands s.votes).contains VoteTarget.allSpies = false) :
    ∃ r s', get_results s = (.ok r, s') ∧
      r.winners = (playersWithVotes s.players s.votes).filter (fun p => p.role == "spy") ∧
      r.losers =
        (playersWithVotes s.players s.votes).filter (fun p => p.role == "detective") ∧
      r.message = none ∧
      s'.status = "completed" ∧
      s'.message = some "Vote tied. Spy team wins." := by
  obtain ⟨m, hm⟩ : ∃ m, maxCount (voteTotals s.votes) = some m := by
    cases hmc : maxCount (voteTotals s.votes) with
    | none => rw [topCands, hmc] at htie; simp at htie
    | some m => exact ⟨m, rfl⟩
  have ht : tallyOutcome s.players s.votes =
      .done (spyNames s.players) (detectiveNames s.players)
        "Vote tied. Spy team wins." := by
    unfold tallyOutcome
    rw [if_neg (by simp [hns]), hm]
    simp only []
    rw [if_pos htie, if_neg (by rw [hsent]; decide)]
  have hpwv : playersWithVotes s.players s.votes =
      [{ player_id := 1, name := p1.name, role := p1.role, votes := countFor s.votes 1 },
       { player_id := 2, name := p2.name, role := p2.role, votes := countFor s.votes 2 },
       { player_id := 3, name := p3.name, role := p3.role, votes := countFor s.votes 3 }] := by
    rw [hp]
    unfold playersWithVotes playersDict
    simp only [List.foldl_cons, List.foldl_nil]
    rw [h1, h2, h3]
    simp [dictSet, sortInts, insertSorted, dictFind,
      List.find?_cons_of_pos, List.find?_cons_of_neg]
  have hd1 := hroles p1 (by simp [hp])
  have hd2 := hroles p2 (by simp [hp])
  have hd3 := hroles p3 (by simp [hp])
  have hn21 : p2.name ≠ p1.name := hn12.symm
  have hn31 : p3.name ≠ p1.name := hn13.symm
  have hn32 : p3.name ≠ p2.name := hn23.symm
  unfold get_results
  rw [if_neg (by simp [hst]), if_neg (by simp [hv, hexp]), ht]
  simp only []
  refine ⟨_, _, rfl, ?_, ?_, rfl, rfl, rfl⟩ <;>
  · rw [hpwv, hp]
    unfold spyNames detectiveNames
    rcases hd1 with hr1 | hr1 <;> rcases hd2 with hr2 | hr2 <;>
      rcases hd3 with hr3 | hr3 <;>
      simp [hr1, hr2, hr3, hn12, hn13, hn23, hn21, hn31, hn32, List.filter]

/-- Witness for `c5_tie_amended` at the concrete tie session `exTie`. -/
theorem c5_tie_amended_witness :
    ∃ r s', get_results exTie = (.ok r, s') ∧
      r.winners =
        (playersWithVotes exTie.players exTie.votes).filter (fun p => p.role == "spy") ∧
      r.losers =
        (playersWithVotes exTie.players exTie.votes).filter
          (fun p => p.role == "detective") ∧
      r.message = none ∧
      s'.status = "completed" ∧
      s'.message = some "Vote tied. Spy team wins." :=
  c5_tie_amended exTie pAlice pBob pCarol rfl rfl rfl rfl (by decide) (by decide)
    (by decide) (by decide) rfl rfl rfl (by decide) (by decide) (by decide)

end MbtiSpy
